import Mathlib

set_option maxHeartbeats 1000000

/-!
Shallow embedding of the inference-request relay in src/server.py: the
validation and proxying logic of the generate route (lines 55-116), the
warm-up trigger schedule_warmup (lines 39-47) and model discovery
_discover_models (lines 119-140).  All definitions are translated from the
Python source; the external collaborators (the requests library, the
json module, Flask) are modelled by explicit parameters and small
executable stand-ins for the exact library behaviour the code relies on.
-/

/-- JSON values as decoded by json.loads: null, booleans, numbers (integral
only in this model; no claim involves float-specific behaviour), strings,
arrays, and objects kept as ordered key-value lists. -/
inductive Json where
  | null
  | bool (b : Bool)
  | num (n : Int)
  | str (s : String)
  | arr (xs : List Json)
  | obj (kvs : List (String × Json))

/-- Python truthiness of a decoded JSON value: None, False, 0, empty string,
empty list and empty dict are falsy, everything else is truthy. -/
def pyTruthy : Json → Bool
  | Json.null => false
  | Json.bool b => b
  | Json.num n => n != 0
  | Json.str s => s != ""
  | Json.arr xs => !xs.isEmpty
  | Json.obj kvs => !kvs.isEmpty

/-- dict.get on an object decoded from JSON.  A Python dict built by
json.loads resolves duplicate keys to the last occurrence, hence the lookup
scans the reversed association list. -/
def dictGet (kvs : List (String × Json)) (k : String) : Option Json :=
  (kvs.reverse.find? (fun p => p.1 == k)).map (fun p => p.2)

/-- Python str.strip with no argument: whitespace removed from both ends
(server.py line 58). -/
def pyStrip (s : String) : String :=
  ⟨((s.toList.dropWhile Char.isWhitespace).reverse.dropWhile Char.isWhitespace).reverse⟩

/-- Python str.split on a one-character separator: splitting the empty
string yields a single empty piece, never an empty list
(server.py line 123). -/
def splitOnCommaChars : List Char → List (List Char)
  | [] => [[]]
  | c :: rest =>
    match splitOnCommaChars rest with
    | [] => [[]]
    | h :: t => if c = ',' then [] :: h :: t else (c :: h) :: t

/-- env_models.split(",") of server.py line 123. -/
def pySplitComma (s : String) : List String :=
  (splitOnCommaChars s.toList).map (fun cs => (⟨cs⟩ : String))

/-- Decimal digit accumulator used by the model of int(string). -/
def digitsVal : List Char → Nat → Option Nat
  | [], acc => some acc
  | c :: rest, acc =>
    if c.isDigit then digitsVal rest (10 * acc + (c.toNat - 48)) else none

/-- Python int(string): optional surrounding whitespace, an optional sign,
then decimal digits; anything else raises ValueError, modelled as none.
(Digit-group underscores accepted by Python 3.6+ are not modelled; no claim
involves them.) -/
def pyIntOfString (s : String) : Option Int :=
  match (pyStrip s).toList with
  | [] => none
  | c :: rest =>
    if c = '+' then
      (if rest.isEmpty then none else (digitsVal rest 0).map (fun n => (n : Int)))
    else if c = '-' then
      (if rest.isEmpty then none else (digitsVal rest 0).map (fun n => -(n : Int)))
    else (digitsVal (c :: rest) 0).map (fun n => (n : Int))

/-- Python int(x) applied to a decoded JSON value (server.py line 66): ints
pass through, bools coerce to 0/1, strings are parsed, and every other type
raises TypeError, modelled as none; the caller catches both error kinds. -/
def pyInt : Json → Option Int
  | Json.num n => some n
  | Json.bool b => some (if b then 1 else 0)
  | Json.str s => pyIntOfString s
  | _ => none

/-- The single in-band error object built at server.py line 112. -/
def errObj (msg : String) : Json :=
  Json.obj [("error", Json.str msg)]

/-- The substitute object for a line that fails to decode, server.py
line 106. -/
def invalidJsonObj (raw : String) : Json :=
  Json.obj [("error", Json.str "invalid json from ollama"), ("raw", Json.str raw)]

/-- server.py lines 103-106: message = json.loads(raw_line), with the
JSONDecodeError handler substituting the diagnostic object.  The parse
function stands for json.loads restricted to single lines: none models a
raised JSONDecodeError. -/
def decodeLine (parse : String → Option Json) (raw : String) : Json :=
  match parse raw with
  | some j => j
  | none => invalidJsonObj raw

/-- message.get("done") under Python truthiness (server.py line 108).
none models the AttributeError raised when the decoded line is not an
object; the boolean is the truthiness of the looked-up value. -/
def pyGetDone : Json → Option Bool
  | Json.obj kvs => some (pyTruthy ((dictGet kvs "done").getD Json.null))
  | _ => none

/-- One item yielded by the stream_response generator: either the raw
buffered body text (non-streaming branch, line 97) or one serialized JSON
chunk (line 107 or 113).  The model keeps the decoded object rather than
its json.dumps text. -/
inductive OutItem where
  | raw (s : String)
  | chunk (j : Json)

/-- Everything the caller observes from one run of the generator: the
yielded items in order, and an uncaught Python exception if one escapes
(only the AttributeError of a decoded non-object line can). -/
structure StreamOut where
  items : List OutItem
  exn : Option String

/-- Outcome of the outbound requests.post call of server.py lines 88-93:
either the request itself raises (connection refused, timeout, ...), or a
connection is established with a status code, a buffered body text, the
NDJSON lines iter_lines will yield, and an optional RequestException raised
mid-read after those lines. -/
inductive Upstream where
  | connectFail (msg : String)
  | conn (status : Nat) (body : String) (lines : List String) (readErr : Option String)

/-- The message str(exc) of the HTTPError that resp.raise_for_status raises
on a 4xx or 5xx status (the exact requests formatting is irrelevant to
every claim). -/
def httpErrorMsg (status : Nat) : String :=
  "HTTP error " ++ toString status

/-- The for loop of server.py lines 100-109: skip falsy (empty) lines,
decode, yield the message, break on a truthy done.  The readErr argument is
the pending mid-read RequestException of the upstream connection: it is
only reached (and then caught at line 110, emitting the single error chunk)
when the loop exhausts the lines without breaking. -/
def relayLoop (parse : String → Option Json) : List String → Option String → StreamOut
  | [], none => ⟨[], none⟩
  | [], some m => ⟨[OutItem.chunk (errObj m)], none⟩
  | raw :: rest, readErr =>
    if raw = "" then relayLoop parse rest readErr
    else
      match pyGetDone (decodeLine parse raw) with
      | none => ⟨[OutItem.chunk (decodeLine parse raw)], some "AttributeError"⟩
      | some true => ⟨[OutItem.chunk (decodeLine parse raw)], none⟩
      | some false =>
        let out := relayLoop parse rest readErr
        ⟨OutItem.chunk (decodeLine parse raw) :: out.items, out.exn⟩

/-- The stream_response generator of server.py lines 86-113, as a function
of the streaming flag and the upstream outcome: a failed connect or a 4xx
or 5xx status (raise_for_status, line 94) is caught at line 110 and yields
the single error chunk; a non-streaming call yields the raw body text
(line 97); a streaming call runs the relay loop. -/
def stream_response (stream_flag : Bool) (parse : String → Option Json)
    (u : Upstream) : StreamOut :=
  match u with
  | Upstream.connectFail msg => ⟨[OutItem.chunk (errObj msg)], none⟩
  | Upstream.conn status body lines readErr =>
    if 400 ≤ status ∧ status < 600 then
      ⟨[OutItem.chunk (errObj (httpErrorMsg status))], none⟩
    else if stream_flag then relayLoop parse lines readErr
    else ⟨[OutItem.raw body], none⟩

/-- The configuration constants of server.py lines 14-16, resolved from the
environment at module load; the field defaults are the built-in fallback
values of the getenv calls. -/
structure ServerConfig where
  default_keep_alive : String
  default_model : String
  default_num_predict : Int

/-- The built-in configuration used when no environment override is set. -/
def cfg0 : ServerConfig :=
  ⟨"5m", "llama3", 512⟩

/-- server.py line 58: (payload.get("prompt") or "").strip() before the
strip call; a falsy or missing prompt value is replaced by the empty
string. -/
def promptValue (kvs : List (String × Json)) : Json :=
  let v := (dictGet kvs "prompt").getD Json.null
  if pyTruthy v then v else Json.str ""

/-- server.py line 62: payload.get("model") or DEFAULT_MODEL. -/
def modelValue (cfg : ServerConfig) (kvs : List (String × Json)) : Json :=
  let v := (dictGet kvs "model").getD Json.null
  if pyTruthy v then v else Json.str cfg.default_model

/-- server.py line 63: payload.get("keep_alive") or DEFAULT_KEEP_ALIVE. -/
def keepAliveValue (cfg : ServerConfig) (kvs : List (String × Json)) : Json :=
  let v := (dictGet kvs "keep_alive").getD Json.null
  if pyTruthy v then v else Json.str cfg.default_keep_alive

/-- server.py lines 64-66: int(num_predict_raw) if num_predict_raw is not
None else DEFAULT_NUM_PREDICT; a missing key and a JSON null both give the
Python None; none models the caught TypeError or ValueError. -/
def numPredictResult (cfg : ServerConfig) (kvs : List (String × Json)) : Option Int :=
  match dictGet kvs "num_predict" with
  | none => some cfg.default_num_predict
  | some Json.null => some cfg.default_num_predict
  | some v => pyInt v

/-- server.py line 71: bool(payload.get("stream", True)). -/
def streamFlagOf (kvs : List (String × Json)) : Bool :=
  match dictGet kvs "stream" with
  | none => true
  | some v => pyTruthy v

/-- The keys of server.py line 81 copied into the outbound request only
when present in the inbound payload. -/
def optionalKeys : List String :=
  ["system", "context", "options", "format", "template"]

/-- The ollama_request dict of server.py lines 73-83: the five validated
fields in literal order, then each optional key present in the payload. -/
def buildRequest (cfg : ServerConfig) (kvs : List (String × Json))
    (prompt : String) (num_predict : Int) (stream_flag : Bool) :
    List (String × Json) :=
  [("prompt", Json.str prompt),
   ("model", modelValue cfg kvs),
   ("keep_alive", keepAliveValue cfg kvs),
   ("num_predict", Json.num num_predict),
   ("stream", Json.bool stream_flag)]
  ++ optionalKeys.filterMap (fun k => (dictGet kvs k).map (fun v => (k, v)))

/-- What the generate handler decides before touching the network: a 400
answer with a JSON error body, or an outbound proxy call with the built
request and the stream flag. -/
inductive GenOutcome where
  | badRequest (body : Json)
  | proxy (req : List (String × Json)) (stream_flag : Bool)

/-- The validation phase of generate, server.py lines 57-83, for a payload
already known to be a dict.  The prompt is stripped and rejected when
empty; a non-string truthy prompt raises AttributeError at the strip call
(modelled as the error case); num_predict failures give the 400 of line 68;
a non-positive num_predict silently becomes the default (line 70). -/
def generateBody (cfg : ServerConfig) (kvs : List (String × Json)) :
    Except String GenOutcome :=
  match promptValue kvs with
  | Json.str s =>
    if pyStrip s = "" then
      Except.ok (GenOutcome.badRequest (errObj "prompt is required"))
    else
      match numPredictResult cfg kvs with
      | none => Except.ok (GenOutcome.badRequest (errObj "num_predict must be an integer"))
      | some np0 =>
        Except.ok (GenOutcome.proxy
          (buildRequest cfg kvs (pyStrip s)
            (if np0 ≤ 0 then cfg.default_num_predict else np0)
            (streamFlagOf kvs))
          (streamFlagOf kvs))
  | _ => Except.error "AttributeError"

/-- server.py line 57 plus the validation phase: payload =
request.get_json(silent=True) or empty-dict.  get_json with silent=True
gives None (modelled none) for an absent or unparseable body; a falsy
decoded value is replaced by the empty dict; calling .get on a truthy
non-dict raises AttributeError (the error case). -/
def generate (cfg : ServerConfig) (payloadOpt : Option Json) :
    Except String GenOutcome :=
  match (if pyTruthy (payloadOpt.getD Json.null) then payloadOpt.getD Json.null
         else Json.obj []) with
  | Json.obj kvs => generateBody cfg kvs
  | _ => Except.error "AttributeError"

/-- The body of the HTTP answer: a buffered JSON document (the jsonify 400
bodies) or the generator output relayed by the Flask Response. -/
inductive RespBody where
  | json (j : Json)
  | stream (out : StreamOut)

/-- One HTTP answer of the generate route: the status code set by the
handler and the body. -/
structure HttpResponse where
  status : Nat
  body : RespBody

/-- The whole generate route, server.py lines 55-116: validation, then
Response(stream_response(), ...) which Flask sends with status 200.  The
upstream argument models the network behind requests.post as a function of
the outbound request body. -/
def handleGenerate (cfg : ServerConfig) (parse : String → Option Json)
    (upstream : List (String × Json) → Upstream) (payloadOpt : Option Json) :
    Except String HttpResponse :=
  match generate cfg payloadOpt with
  | Except.error e => Except.error e
  | Except.ok (GenOutcome.badRequest b) => Except.ok ⟨400, RespBody.json b⟩
  | Except.ok (GenOutcome.proxy req sf) =>
    Except.ok ⟨200, RespBody.stream (stream_response sf parse (upstream req))⟩

/-- The process-wide warm-up state: the _warmup_started flag of server.py
line 39 plus an observer counting the threading.Thread(...).start() calls
of line 47. -/
structure WarmupState where
  warmup_started : Bool
  threads_started : Nat

/-- schedule_warmup, server.py lines 42-47: return early when the flag is
set, otherwise set it and start one background warm-up thread. -/
def schedule_warmup (s : WarmupState) : WarmupState :=
  if s.warmup_started then s
  else ⟨true, s.threads_started + 1⟩

/-- The trimmed non-empty pieces of the OLLAMA_WARM_MODELS override,
server.py lines 121-123: an unset or empty variable contributes nothing. -/
def envList (env_models : Option String) : List String :=
  match env_models with
  | none => []
  | some s =>
    if s = "" then []
    else ((pySplitComma s).map pyStrip).filter (fun m => m ≠ "")

/-- server.py lines 131-134 for one registry entry: a dict whose "model"
field is a non-empty string contributes that name, every other entry is
ignored. -/
def agentModel (a : Json) : Option String :=
  match a with
  | Json.obj kvs =>
    match dictGet kvs "model" with
    | some (Json.str m) => if m = "" then none else some m
    | _ => none
  | _ => none

/-- The per-entry set update of server.py lines 129-134 over the decoded
agents file.  The argument models the file: none is a missing file, some
none a JSONDecodeError (caught at line 135, keeping the set as is), and a
decoded non-list value is ignored by the isinstance check of line 129. -/
def agentsFold (agents_file : Option (Option Json)) (models : Finset String) :
    Finset String :=
  match agents_file with
  | some (some (Json.arr agents)) =>
    agents.foldl (fun acc a =>
      match agentModel a with
      | some m => insert m acc
      | none => acc) models
  | _ => models

/-- The registry names as a list, for stating what agentsFold collects. -/
def regList (agents_file : Option (Option Json)) : List String :=
  match agents_file with
  | some (some (Json.arr agents)) => agents.filterMap agentModel
  | _ => []

/-- _discover_models, server.py lines 119-140: the env override names, then
the registry names, and the built-in default model when the set is still
empty. -/
def _discover_models (cfg : ServerConfig) (env_models : Option String)
    (agents_file : Option (Option Json)) : Finset String :=
  let models := (envList env_models).foldl (fun acc m => insert m acc) (∅ : Finset String)
  let models := agentsFold agents_file models
  if models = ∅ then insert cfg.default_model models else models

/-- Element at the junction point of an append. -/
theorem get?_at_append_length {α : Type} (l₁ : List α) (x : α) (l₂ : List α) :
    (l₁ ++ x :: l₂).get? l₁.length = some x := by
  induction l₁ with
  | nil => rfl
  | cons a t ih => simpa using ih

/-- Running the relay loop over non-blank lines none of which carries a
truthy done flag, followed by a terminal done line: one chunk per line, in
order, nothing read past the done line, clean termination. -/
theorem relayLoop_run (parse : String → Option Json) (front : List String)
    (lastLine : String) (extra : List String) (readErr : Option String)
    (hf : ∀ s ∈ front, s ≠ "" ∧ pyGetDone (decodeLine parse s) = some false)
    (hl1 : lastLine ≠ "") (hl2 : pyGetDone (decodeLine parse lastLine) = some true) :
    relayLoop parse (front ++ lastLine :: extra) readErr =
      ⟨(front ++ [lastLine]).map (fun s => OutItem.chunk (decodeLine parse s)), none⟩ := by
  induction front with
  | nil =>
    rw [List.nil_append, relayLoop, if_neg hl1, hl2]
    rfl
  | cons a t ih =>
    obtain ⟨ha1, ha2⟩ := hf a (List.mem_cons_self a t)
    have ih2 := ih (fun s hs => hf s (List.mem_cons_of_mem a hs))
    rw [List.cons_append, relayLoop, if_neg ha1, ha2]
    simp [ih2]

/-- C1: for every streaming request whose runtime connection yields
non-blank lines L1..Ln with done true only on Ln, the relay forwards
exactly one chunk per line, derived from L1..Ln in that order, stops
reading after the first done chunk (the extra lines are never consumed),
and closes the response immediately after forwarding it (no further item,
no pending error, no exception). -/
theorem stream_order_preservation (parse : String → Option Json)
    (front : List String) (lastLine : String) (extra : List String)
    (status : Nat) (body : String) (readErr : Option String)
    (hst : status < 400)
    (hf : ∀ s ∈ front, s ≠ "" ∧ pyGetDone (decodeLine parse s) = some false)
    (hl1 : lastLine ≠ "") (hl2 : pyGetDone (decodeLine parse lastLine) = some true) :
    stream_response true parse
        (Upstream.conn status body (front ++ lastLine :: extra) readErr) =
      ⟨(front ++ [lastLine]).map (fun s => OutItem.chunk (decodeLine parse s)), none⟩ := by
  have hcond : ¬(400 ≤ status ∧ status < 600) := by omega
  have h := relayLoop_run parse front lastLine extra readErr hf hl1 hl2
  rw [stream_response, if_neg hcond]
  simpa using h

theorem stream_order_preservation_witness :
    stream_response true
      (fun s => if s = "l1" then some (Json.obj [("response", Json.str "a")])
                else if s = "l2" then some (Json.obj [("done", Json.bool true)])
                else none)
      (Upstream.conn 200 "" (["l1"] ++ "l2" :: ["l3"]) none) =
      ⟨(["l1"] ++ ["l2"]).map (fun s => OutItem.chunk (decodeLine
        (fun s => if s = "l1" then some (Json.obj [("response", Json.str "a")])
                  else if s = "l2" then some (Json.obj [("done", Json.bool true)])
                  else none) s)), none⟩ :=
  stream_order_preservation _ ["l1"] "l2" ["l3"] 200 "" none (by decide)
    (by decide) (by decide) (by decide)

/-- The substitute object for an undecodable line carries no done flag, so
the loop continues past it. -/
theorem pyGetDone_invalidJsonObj (raw : String) :
    pyGetDone (invalidJsonObj raw) = some false := rfl

/-- C2: for a streaming request whose upstream lines are non-blank, where
line Lk (here the line named bad, at position A.length) is not valid JSON
and done is true only on the final line, the forwarded sequence still has
one element per line in order, element k is the error object carrying the
raw text of Lk, and forwarding continues through the final line: the single
malformed line does not abort the stream. -/
theorem malformed_line_resilience (parse : String → Option Json)
    (A B : List String) (bad lastLine : String) (status : Nat) (body : String)
    (readErr : Option String) (hst : status < 400)
    (hA : ∀ s ∈ A, s ≠ "" ∧ pyGetDone (decodeLine parse s) = some false)
    (hbad1 : bad ≠ "") (hbad2 : parse bad = none)
    (hB : ∀ s ∈ B, s ≠ "" ∧ pyGetDone (decodeLine parse s) = some false)
    (hl1 : lastLine ≠ "") (hl2 : pyGetDone (decodeLine parse lastLine) = some true) :
    stream_response true parse
        (Upstream.conn status body ((A ++ bad :: B) ++ lastLine :: []) readErr) =
      ⟨((A ++ bad :: B) ++ [lastLine]).map
          (fun s => OutItem.chunk (decodeLine parse s)), none⟩
    ∧ decodeLine parse bad = invalidJsonObj bad
    ∧ (((A ++ bad :: B) ++ [lastLine]).map
          (fun s => OutItem.chunk (decodeLine parse s))).get? A.length
        = some (OutItem.chunk (invalidJsonObj bad))
    ∧ (((A ++ bad :: B) ++ [lastLine]).map
          (fun s => OutItem.chunk (decodeLine parse s))).length
        = ((A ++ bad :: B) ++ [lastLine]).length := by
  have hdec : decodeLine parse bad = invalidJsonObj bad := by
    rw [decodeLine, hbad2]
  have hbadok : pyGetDone (decodeLine parse bad) = some false := by
    rw [hdec]; rfl
  have hfront : ∀ s ∈ A ++ bad :: B, s ≠ "" ∧ pyGetDone (decodeLine parse s) = some false := by
    intro s hs
    rcases List.mem_append.mp hs with h | h
    · exact hA s h
    · rcases List.mem_cons.mp h with h | h
      · subst h; exact ⟨hbad1, hbadok⟩
      · exact hB s h
  have hcond : ¬(400 ≤ status ∧ status < 600) := by omega
  refine ⟨?_, hdec, ?_, ?_⟩
  · have h := relayLoop_run parse (A ++ bad :: B) lastLine [] readErr hfront hl1 hl2
    rw [stream_response, if_neg hcond]
    simpa using h
  · simp only [List.map_append, List.map_cons, List.map_nil, List.append_assoc,
      List.cons_append, List.nil_append]
    rw [hdec]
    have h := get?_at_append_length
      (A.map (fun s => OutItem.chunk (decodeLine parse s)))
      (OutItem.chunk (invalidJsonObj bad))
      ((B.map (fun s => OutItem.chunk (decodeLine parse s)))
        ++ [OutItem.chunk (decodeLine parse lastLine)])
    simpa [List.length_map] using h
  · simp [List.length_map]

theorem malformed_line_resilience_witness :
    (stream_response true
        (fun s => if s = "g1" then some (Json.obj [("response", Json.str "x")])
                  else if s = "g2" then some (Json.obj [("done", Json.bool true)])
                  else none)
        (Upstream.conn 200 "" ((["g1"] ++ "oops" :: []) ++ "g2" :: []) none) =
      ⟨((["g1"] ++ "oops" :: []) ++ ["g2"]).map
          (fun s => OutItem.chunk (decodeLine
            (fun s => if s = "g1" then some (Json.obj [("response", Json.str "x")])
                      else if s = "g2" then some (Json.obj [("done", Json.bool true)])
                      else none) s)), none⟩)
    ∧ decodeLine
        (fun s => if s = "g1" then some (Json.obj [("response", Json.str "x")])
                  else if s = "g2" then some (Json.obj [("done", Json.bool true)])
                  else none) "oops" = invalidJsonObj "oops"
    ∧ (((["g1"] ++ "oops" :: []) ++ ["g2"]).map
          (fun s => OutItem.chunk (decodeLine
            (fun s => if s = "g1" then some (Json.obj [("response", Json.str "x")])
                      else if s = "g2" then some (Json.obj [("done", Json.bool true)])
                      else none) s))).get? (["g1"] : List String).length
        = some (OutItem.chunk (invalidJsonObj "oops"))
    ∧ (((["g1"] ++ "oops" :: []) ++ ["g2"]).map
          (fun s => OutItem.chunk (decodeLine
            (fun s => if s = "g1" then some (Json.obj [("response", Json.str "x")])
                      else if s = "g2" then some (Json.obj [("done", Json.bool true)])
                      else none) s))).length
        = ((["g1"] ++ "oops" :: []) ++ ["g2"]).length :=
  malformed_line_resilience _ ["g1"] [] "oops" "g2" 200 "" none (by decide)
    (by decide) (by decide) rfl (by decide) (by decide) (by decide)


/-- A payload that decodes to a dict reaches the validation body: a falsy
dict is the empty dict, which the or-default of line 57 replaces with an
equal empty dict. -/
theorem generate_obj (cfg : ServerConfig) (kvs : List (String × Json)) :
    generate cfg (some (Json.obj kvs)) = generateBody cfg kvs := by
  cases kvs with
  | nil => rfl
  | cons a t => rfl

/-- When validation answers 400, the route returns that body with
status 400. -/
theorem handleGenerate_badRequest (cfg : ServerConfig) (parse : String → Option Json)
    (upstream : List (String × Json) → Upstream) (payloadOpt : Option Json) (b : Json)
    (hg : generate cfg payloadOpt = Except.ok (GenOutcome.badRequest b)) :
    handleGenerate cfg parse upstream payloadOpt = Except.ok ⟨400, RespBody.json b⟩ := by
  rw [handleGenerate, hg]

/-- When validation builds an outbound request, the route returns status
200 with the generator output over the single upstream consultation. -/
theorem handleGenerate_proxy (cfg : ServerConfig) (parse : String → Option Json)
    (upstream : List (String × Json) → Upstream) (payloadOpt : Option Json)
    (req : List (String × Json)) (sf : Bool)
    (hg : generate cfg payloadOpt = Except.ok (GenOutcome.proxy req sf)) :
    handleGenerate cfg parse upstream payloadOpt =
      Except.ok ⟨200, RespBody.stream (stream_response sf parse (upstream req))⟩ := by
  rw [handleGenerate, hg]

/-- C4: a request whose prompt field is missing, or is a string that is
blank after stripping, is answered 400 with the prompt-is-required error
body, whatever the network would have answered: the upstream function is
universally quantified, so no outbound call influences the result. -/
theorem blank_prompt_rejected (cfg : ServerConfig) (parse : String → Option Json)
    (upstream : List (String × Json) → Upstream) (kvs : List (String × Json))
    (h : dictGet kvs "prompt" = none
       ∨ ∃ s, dictGet kvs "prompt" = some (Json.str s) ∧ pyStrip s = "") :
    handleGenerate cfg parse upstream (some (Json.obj kvs)) =
      Except.ok ⟨400, RespBody.json (errObj "prompt is required")⟩ := by
  have hbody : generateBody cfg kvs
      = Except.ok (GenOutcome.badRequest (errObj "prompt is required")) := by
    rcases h with h | ⟨s, hs, hstrip⟩
    · have hv : promptValue kvs = Json.str "" := by
        simp [promptValue, h, pyTruthy]
      rw [generateBody, hv]
      rfl
    · by_cases hse : s = ""
      · subst hse
        have hv : promptValue kvs = Json.str "" := by
          simp [promptValue, hs, pyTruthy]
        rw [generateBody, hv]
        rfl
      · have hv : promptValue kvs = Json.str s := by
          simp [promptValue, hs, pyTruthy, hse]
        rw [generateBody, hv]
        simp [hstrip]
  exact handleGenerate_badRequest cfg parse upstream _ _ ((generate_obj cfg kvs).trans hbody)

theorem blank_prompt_rejected_witness :
    handleGenerate cfg0 (fun _ => none) (fun _ => Upstream.connectFail "refused")
        (some (Json.obj [("prompt", Json.str "   ")])) =
      Except.ok ⟨400, RespBody.json (errObj "prompt is required")⟩ :=
  blank_prompt_rejected cfg0 (fun _ => none) (fun _ => Upstream.connectFail "refused")
    [("prompt", Json.str "   ")] (Or.inr ⟨"   ", rfl, rfl⟩)

/-- A network-level failure of the outbound call: the requests.post call
raised, or raise_for_status found a 4xx or 5xx status. -/
def netFail : Upstream → Prop
  | Upstream.connectFail _ => True
  | Upstream.conn status _ _ _ => 400 ≤ status ∧ status < 600

/-- The message carried by the single in-band error object on a
network-level failure. -/
def netFailMsg : Upstream → String
  | Upstream.connectFail m => m
  | Upstream.conn status _ _ _ => httpErrorMsg status

/-- C3: for every request that passes validation, in either streaming or
non-streaming mode, a network-level failure talking to the runtime
(connect error or non-2xx status) produces exactly one forwarded JSON
object carrying an error message, after which the response terminates
cleanly; the HTTP status stays 200 and the upstream function is consulted
exactly once with no retry. -/
theorem net_failure_single_error_chunk (cfg : ServerConfig)
    (parse : String → Option Json) (upstream : List (String × Json) → Upstream)
    (payloadOpt : Option Json) (req : List (String × Json)) (sf : Bool)
    (hg : generate cfg payloadOpt = Except.ok (GenOutcome.proxy req sf))
    (hfail : netFail (upstream req)) :
    handleGenerate cfg parse upstream payloadOpt =
      Except.ok ⟨200, RespBody.stream
        ⟨[OutItem.chunk (errObj (netFailMsg (upstream req)))], none⟩⟩ := by
  rw [handleGenerate_proxy cfg parse upstream payloadOpt req sf hg]
  cases hu : upstream req with
  | connectFail m => rfl
  | conn status body lines readErr =>
    rw [hu] at hfail
    have hf2 : 400 ≤ status ∧ status < 600 := hfail
    rw [stream_response.eq_def]
    simp only [if_pos hf2]
    rfl

theorem net_failure_single_error_chunk_witness :
    handleGenerate cfg0 (fun _ => none) (fun _ => Upstream.connectFail "boom")
        (some (Json.obj [("prompt", Json.str "hi")])) =
      Except.ok ⟨200, RespBody.stream
        ⟨[OutItem.chunk (errObj (netFailMsg
          ((fun _ => Upstream.connectFail "boom")
            (buildRequest cfg0 [("prompt", Json.str "hi")] "hi" 512 true))))], none⟩⟩ :=
  net_failure_single_error_chunk cfg0 (fun _ => none)
    (fun _ => Upstream.connectFail "boom") (some (Json.obj [("prompt", Json.str "hi")]))
    (buildRequest cfg0 [("prompt", Json.str "hi")] "hi" 512 true) true rfl trivial

/-- find? skips a prefix on which the predicate never holds. -/
theorem find?_append_of_none {α : Type} (p : α → Bool) (l₁ l₂ : List α)
    (h : l₁.find? p = none) : (l₁ ++ l₂).find? p = l₂.find? p := by
  induction l₁ with
  | nil => rfl
  | cons a t ih =>
    cases hpa : p a with
    | true =>
      rw [List.find?_cons_of_pos _ hpa] at h
      exact Option.noConfusion h
    | false =>
      have hpa2 : ¬ p a = true := by simp [hpa]
      rw [List.find?_cons_of_neg _ hpa2] at h
      rw [List.cons_append, List.find?_cons_of_neg _ hpa2]
      exact ih h

/-- The num_predict field the runtime receives is the one placed in the
base of the ollama_request dict: none of the optional pass-through keys
can shadow it. -/
theorem dictGet_buildRequest_num_predict (cfg : ServerConfig)
    (kvs : List (String × Json)) (prompt : String) (np : Int) (sf : Bool) :
    dictGet (buildRequest cfg kvs prompt np sf) "num_predict" = some (Json.num np) := by
  have hnone : ((optionalKeys.filterMap
      (fun k => (dictGet kvs k).map (fun v => (k, v)))).reverse).find?
        (fun q => q.1 == "num_predict") = none := by
    rw [List.find?_eq_none]
    intro x hx
    rcases List.mem_filterMap.mp (List.mem_reverse.mp hx) with ⟨k, hk, hfk⟩
    rcases Option.map_eq_some'.mp hfk with ⟨v, hv, hkv⟩
    rw [← hkv]
    simp only [optionalKeys, List.mem_cons, List.not_mem_nil, or_false] at hk
    rcases hk with h | h | h | h | h
    all_goals (subst h; simp)
  rw [dictGet, buildRequest, List.reverse_append,
    find?_append_of_none _ _ _ hnone]
  rfl

/-- C5: a request with a usable prompt whose num_predict field is present,
non-null, and not convertible to an integer is answered 400 with the
num_predict error body, whatever the network would have answered. -/
theorem non_integer_num_predict_rejected (cfg : ServerConfig)
    (parse : String → Option Json) (upstream : List (String × Json) → Upstream)
    (kvs : List (String × Json)) (p : String) (v : Json)
    (hp : dictGet kvs "prompt" = some (Json.str p)) (hp2 : pyStrip p ≠ "")
    (hv : dictGet kvs "num_predict" = some v) (hvn : v ≠ Json.null)
    (hvi : pyInt v = none) :
    handleGenerate cfg parse upstream (some (Json.obj kvs)) =
      Except.ok ⟨400, RespBody.json (errObj "num_predict must be an integer")⟩ := by
  have hpne : p ≠ "" := by
    intro he
    subst he
    exact hp2 rfl
  have hval : promptValue kvs = Json.str p := by
    simp [promptValue, hp, pyTruthy, hpne]
  have hnp : numPredictResult cfg kvs = none := by
    rw [numPredictResult, hv]
    cases v with
    | null => exact absurd rfl hvn
    | bool b => exact hvi
    | num n => exact hvi
    | str s => exact hvi
    | arr xs => exact hvi
    | obj kvs2 => exact hvi
  have hbody : generateBody cfg kvs
      = Except.ok (GenOutcome.badRequest (errObj "num_predict must be an integer")) := by
    rw [generateBody, hval]
    simp [hp2, hnp]
  exact handleGenerate_badRequest cfg parse upstream _ _ ((generate_obj cfg kvs).trans hbody)

theorem non_integer_num_predict_rejected_witness :
    handleGenerate cfg0 (fun _ => none) (fun _ => Upstream.connectFail "refused")
        (some (Json.obj [("prompt", Json.str "hi"), ("num_predict", Json.str "many")])) =
      Except.ok ⟨400, RespBody.json (errObj "num_predict must be an integer")⟩ :=
  non_integer_num_predict_rejected cfg0 (fun _ => none)
    (fun _ => Upstream.connectFail "refused")
    [("prompt", Json.str "hi"), ("num_predict", Json.str "many")] "hi" (Json.str "many")
    rfl (by decide) rfl (by intro h; cases h) (by decide)

/-- C6: a request with a usable prompt whose num_predict is omitted (or
null, which payload.get cannot distinguish from omitted) or converts to an
integer not greater than zero passes validation with no error, and the
num_predict field of the outbound request is exactly the configured
default. -/
theorem non_positive_num_predict_defaulted (cfg : ServerConfig)
    (kvs : List (String × Json)) (p : String)
    (hp : dictGet kvs "prompt" = some (Json.str p)) (hp2 : pyStrip p ≠ "")
    (hnp : dictGet kvs "num_predict" = none
         ∨ dictGet kvs "num_predict" = some Json.null
         ∨ ∃ v z, dictGet kvs "num_predict" = some v ∧ pyInt v = some z ∧ z ≤ 0) :
    ∃ req sf, generate cfg (some (Json.obj kvs)) = Except.ok (GenOutcome.proxy req sf)
      ∧ dictGet req "num_predict" = some (Json.num cfg.default_num_predict) := by
  have hpne : p ≠ "" := by
    intro he
    subst he
    exact hp2 rfl
  have hval : promptValue kvs = Json.str p := by
    simp [promptValue, hp, pyTruthy, hpne]
  have h1 : ∃ np0, numPredictResult cfg kvs = some np0
      ∧ (if np0 ≤ 0 then cfg.default_num_predict else np0) = cfg.default_num_predict := by
    rcases hnp with h | h | ⟨v, z, hv, hpi, hz⟩
    · refine ⟨cfg.default_num_predict, ?_, ?_⟩
      · rw [numPredictResult, h]
      · by_cases hd : cfg.default_num_predict ≤ 0 <;> simp [hd]
    · refine ⟨cfg.default_num_predict, ?_, ?_⟩
      · rw [numPredictResult, h]
      · by_cases hd : cfg.default_num_predict ≤ 0 <;> simp [hd]
    · refine ⟨z, ?_, if_pos hz⟩
      rw [numPredictResult, hv]
      cases v with
      | null => exact Option.noConfusion hpi
      | bool b => exact hpi
      | num n => exact hpi
      | str s => exact hpi
      | arr xs => exact hpi
      | obj kvs2 => exact hpi
  obtain ⟨np0, hnpr, hif⟩ := h1
  refine ⟨buildRequest cfg kvs (pyStrip p) cfg.default_num_predict (streamFlagOf kvs),
    streamFlagOf kvs, ?_, dictGet_buildRequest_num_predict cfg kvs (pyStrip p)
      cfg.default_num_predict (streamFlagOf kvs)⟩
  rw [generate_obj, generateBody, hval]
  simp [hp2, hnpr, hif]

theorem non_positive_num_predict_defaulted_witness :
    ∃ req sf, generate cfg0
        (some (Json.obj [("prompt", Json.str "hi"), ("num_predict", Json.num (-3))]))
        = Except.ok (GenOutcome.proxy req sf)
      ∧ dictGet req "num_predict" = some (Json.num cfg0.default_num_predict) :=
  non_positive_num_predict_defaulted cfg0
    [("prompt", Json.str "hi"), ("num_predict", Json.num (-3))] "hi"
    rfl (by decide) (Or.inr (Or.inr ⟨Json.num (-3), -3, rfl, rfl, by decide⟩))

/-- C7: a request with a usable prompt, an explicitly falsy stream field
and a convertible num_predict makes one outbound call, and when the
runtime answers with a success status the caller gets status 200 and the
raw response body text, unmodified, as the single item of the response. -/
theorem non_streaming_passthrough (cfg : ServerConfig)
    (parse : String → Option Json) (upstream : List (String × Json) → Upstream)
    (kvs : List (String × Json)) (p : String) (v : Json)
    (status : Nat) (body : String) (lines : List String) (readErr : Option String)
    (hp : dictGet kvs "prompt" = some (Json.str p)) (hp2 : pyStrip p ≠ "")
    (hs : dictGet kvs "stream" = some v) (hsv : pyTruthy v = false)
    (hnp : numPredictResult cfg kvs ≠ none)
    (hu : ∀ req, upstream req = Upstream.conn status body lines readErr)
    (hst : status < 400) :
    handleGenerate cfg parse upstream (some (Json.obj kvs)) =
      Except.ok ⟨200, RespBody.stream ⟨[OutItem.raw body], none⟩⟩ := by
  obtain ⟨np0, hnp0⟩ := Option.ne_none_iff_exists'.mp hnp
  have hpne : p ≠ "" := by
    intro he
    subst he
    exact hp2 rfl
  have hval : promptValue kvs = Json.str p := by
    simp [promptValue, hp, pyTruthy, hpne]
  have hsf : streamFlagOf kvs = false := by
    rw [streamFlagOf, hs]
    exact hsv
  have hg : generate cfg (some (Json.obj kvs)) = Except.ok (GenOutcome.proxy
      (buildRequest cfg kvs (pyStrip p)
        (if np0 ≤ 0 then cfg.default_num_predict else np0) false) false) := by
    rw [generate_obj, generateBody, hval]
    simp [hp2, hnp0, hsf]
  rw [handleGenerate_proxy cfg parse upstream _ _ _ hg, hu]
  have hcond : ¬(400 ≤ status ∧ status < 600) := by omega
  rw [stream_response.eq_def]
  simp only [if_neg hcond]
  rfl

theorem non_streaming_passthrough_witness :
    handleGenerate cfg0 (fun _ => none)
      (fun _ => Upstream.conn 200 "\x7b\"response\": \"hi\"\x7d" [] none)
      (some (Json.obj [("prompt", Json.str "hello"), ("stream", Json.bool false)])) =
      Except.ok ⟨200, RespBody.stream
        ⟨[OutItem.raw "\x7b\"response\": \"hi\"\x7d"], none⟩⟩ :=
  non_streaming_passthrough cfg0 (fun _ => none)
    (fun _ => Upstream.conn 200 "\x7b\"response\": \"hi\"\x7d" [] none)
    [("prompt", Json.str "hello"), ("stream", Json.bool false)] "hello"
    (Json.bool false) 200 "\x7b\"response\": \"hi\"\x7d" [] none
    rfl (by decide) rfl rfl (by intro h; cases h) (fun _ => rfl) (by decide)

/-- C8: from the initial process state (flag down, no thread started),
calling the warm-up trigger n times for any n at least 1 leaves the flag
set and exactly one background thread started: the first call flips the
flag and starts the thread, and every call on a state whose flag is
already set is a no-op leaving the whole state unchanged. -/
theorem warmup_trigger_idempotent (n : Nat) (hn : 1 ≤ n) :
    schedule_warmup^[n] ⟨false, 0⟩ = (⟨true, 1⟩ : WarmupState)
    ∧ schedule_warmup ⟨false, 0⟩ = (⟨true, 1⟩ : WarmupState)
    ∧ ∀ s : WarmupState, s.warmup_started = true → schedule_warmup s = s := by
  have hfix : ∀ s : WarmupState, s.warmup_started = true → schedule_warmup s = s := by
    intro s hs
    rw [schedule_warmup, if_pos hs]
  have hiter : ∀ m : Nat, schedule_warmup^[m] ⟨true, 1⟩ = (⟨true, 1⟩ : WarmupState) := by
    intro m
    induction m with
    | zero => rfl
    | succ k ih => rw [Function.iterate_succ_apply, hfix ⟨true, 1⟩ rfl, ih]
  refine ⟨?_, rfl, hfix⟩
  obtain ⟨k, rfl⟩ : ∃ k, n = k + 1 := ⟨n - 1, by omega⟩
  rw [Function.iterate_succ_apply]
  have h1 : schedule_warmup ⟨false, 0⟩ = (⟨true, 1⟩ : WarmupState) := rfl
  rw [h1, hiter]

theorem warmup_trigger_idempotent_witness :
    schedule_warmup^[3] ⟨false, 0⟩ = (⟨true, 1⟩ : WarmupState)
    ∧ schedule_warmup ⟨false, 0⟩ = (⟨true, 1⟩ : WarmupState)
    ∧ ∀ s : WarmupState, s.warmup_started = true → schedule_warmup s = s :=
  warmup_trigger_idempotent 3 (by decide)

/-- C10 counterexample: a request body decoding to the truthy non-object
JSON value [1] does not produce the 400 prompt-is-required answer; the
handler raises an uncaught AttributeError when payload.get is called on
the decoded list, contradicting the claim that a malformed body never
causes an exception. -/
theorem malformed_body_counterexample :
    generate cfg0 (some (Json.arr [Json.num 1])) = Except.error "AttributeError"
    ∧ handleGenerate cfg0 (fun _ => none) (fun _ => Upstream.connectFail "x")
        (some (Json.arr [Json.num 1]))
      ≠ Except.ok ⟨400, RespBody.json (errObj "prompt is required")⟩ := by
  refine ⟨rfl, ?_⟩
  have h : handleGenerate cfg0 (fun _ => none) (fun _ => Upstream.connectFail "x")
      (some (Json.arr [Json.num 1])) = Except.error "AttributeError" := rfl
  rw [h]
  intro hc
  exact Except.noConfusion hc

/-- C10 amended: a request body that is absent, unparseable, or decodes to
a falsy JSON value (null, false, 0, the empty string, the empty array or
the empty object) is treated as the empty object and answered 400 with the
prompt-is-required body; a body decoding to a truthy non-object value
instead raises an uncaught AttributeError in the handler. -/
theorem malformed_body_amended (cfg : ServerConfig) (parse : String → Option Json)
    (upstream : List (String × Json) → Upstream) (payloadOpt : Option Json)
    (h : payloadOpt = none ∨ ∃ j, payloadOpt = some j ∧ pyTruthy j = false) :
    handleGenerate cfg parse upstream payloadOpt =
      Except.ok ⟨400, RespBody.json (errObj "prompt is required")⟩ := by
  have hkv : generate cfg payloadOpt = generateBody cfg [] := by
    rcases h with h | ⟨j, hj, hfalsy⟩
    · subst h
      rfl
    · subst hj
      rw [generate]
      simp only [Option.getD_some, hfalsy]
      rfl
  have hb : generateBody cfg []
      = Except.ok (GenOutcome.badRequest (errObj "prompt is required")) := rfl
  exact handleGenerate_badRequest cfg parse upstream _ _ (hkv.trans hb)

theorem malformed_body_amended_witness :
    handleGenerate cfg0 (fun _ => none) (fun _ => Upstream.connectFail "x") none =
      Except.ok ⟨400, RespBody.json (errObj "prompt is required")⟩ :=
  malformed_body_amended cfg0 (fun _ => none) (fun _ => Upstream.connectFail "x")
    none (Or.inl rfl)

/-- Membership after folding plain set insertion over a list. -/
theorem mem_foldl_insert (l : List String) (s : Finset String) (m : String) :
    m ∈ l.foldl (fun acc x => insert x acc) s ↔ m ∈ s ∨ m ∈ l := by
  induction l generalizing s with
  | nil => simp
  | cons a t ih =>
    rw [List.foldl_cons, ih]
    simp only [Finset.mem_insert, List.mem_cons]
    tauto

/-- Membership after the conditional-insert fold over one agents list. -/
theorem mem_agentFoldList (xs : List Json) (s : Finset String) (m : String) :
    m ∈ xs.foldl (fun acc a =>
        match agentModel a with
        | some mm => insert mm acc
        | none => acc) s
      ↔ m ∈ s ∨ m ∈ xs.filterMap agentModel := by
  induction xs generalizing s with
  | nil => simp
  | cons a t ih =>
    cases ha : agentModel a with
    | none =>
      simp only [List.foldl_cons, ha, List.filterMap_cons]
      exact ih s
    | some mm =>
      simp only [List.foldl_cons, ha, List.filterMap_cons]
      rw [ih]
      simp only [Finset.mem_insert, List.mem_cons]
      tauto

/-- Membership after the registry pass, for every shape of the agents
file. -/
theorem mem_agentsFold (af : Option (Option Json)) (s : Finset String) (m : String) :
    m ∈ agentsFold af s ↔ m ∈ s ∨ m ∈ regList af := by
  cases af with
  | none => simp [agentsFold, regList]
  | some o =>
    cases o with
    | none => simp [agentsFold, regList]
    | some j =>
      cases j with
      | arr xs => exact mem_agentFoldList xs s m
      | null => simp [agentsFold, regList]
      | bool b => simp [agentsFold, regList]
      | num n => simp [agentsFold, regList]
      | str s2 => simp [agentsFold, regList]
      | obj kvs => simp [agentsFold, regList]

/-- Zeta-reduced shape of _discover_models. -/
theorem _discover_models_eq (cfg : ServerConfig) (env : Option String)
    (af : Option (Option Json)) :
    _discover_models cfg env af =
      (if agentsFold af ((envList env).foldl (fun acc mm => insert mm acc) ∅) = ∅
       then insert cfg.default_model
         (agentsFold af ((envList env).foldl (fun acc mm => insert mm acc) ∅))
       else agentsFold af ((envList env).foldl (fun acc mm => insert mm acc) ∅)) := rfl

/-- C9: discovery returns exactly the union of the trimmed non-empty env
override names and the non-empty string model fields of dict registry
entries, falling back to the singleton built-in default model when that
union is empty; in particular override "a,b" with registry entries
having model c and a model-less entry gives exactly the three names, and
no override with a missing or empty registry gives the default
singleton. -/
theorem discover_models_union :
    (∀ (cfg : ServerConfig) (env : Option String) (af : Option (Option Json)) (m : String),
        m ∈ _discover_models cfg env af ↔
          (if envList env = [] ∧ regList af = [] then m = cfg.default_model
           else m ∈ envList env ∨ m ∈ regList af))
    ∧ _discover_models cfg0 (some "a,b")
        (some (some (Json.arr [Json.obj [("model", Json.str "c")],
          Json.obj [("other", Json.num 1)]])))
        = ({"a", "b", "c"} : Finset String)
    ∧ _discover_models cfg0 none none = ({"llama3"} : Finset String)
    ∧ _discover_models cfg0 none (some (some (Json.arr [])))
        = ({"llama3"} : Finset String) := by
  refine ⟨?_, by decide, by decide, by decide⟩
  intro cfg env af m
  have hmem : ∀ x, x ∈ agentsFold af ((envList env).foldl (fun acc mm => insert mm acc) ∅)
      ↔ x ∈ envList env ∨ x ∈ regList af := by
    intro x
    rw [mem_agentsFold, mem_foldl_insert]
    simp only [Finset.not_mem_empty, false_or]
  by_cases hemp : agentsFold af ((envList env).foldl (fun acc mm => insert mm acc) ∅) = ∅
  · have hno : ∀ x, ¬(x ∈ envList env ∨ x ∈ regList af) := by
      intro x hx
      have hin := (hmem x).mpr hx
      rw [hemp] at hin
      exact absurd hin (Finset.not_mem_empty x)
    have he1 : envList env = [] := by
      rw [List.eq_nil_iff_forall_not_mem]
      intro x hx
      exact hno x (Or.inl hx)
    have he2 : regList af = [] := by
      rw [List.eq_nil_iff_forall_not_mem]
      intro x hx
      exact hno x (Or.inr hx)
    rw [_discover_models_eq, if_pos hemp, hemp, he1, he2]
    simp
  · have hne : ¬(envList env = [] ∧ regList af = []) := by
      rintro ⟨h1, h2⟩
      apply hemp
      rw [Finset.eq_empty_iff_forall_not_mem]
      intro x hx
      rcases (hmem x).mp hx with hc | hc
      · rw [h1] at hc
        exact absurd hc (List.not_mem_nil x)
      · rw [h2] at hc
        exact absurd hc (List.not_mem_nil x)
    rw [_discover_models_eq, if_neg hemp, if_neg hne]
    exact hmem m
